import Mathlib

/-!
Shallow embedding of `mpf/devices/ball_device/outgoing_balls_handler.py`
(the outgoing-ball eject orchestration of the MPF pinball framework).

Modelling conventions:
* Python exceptions are values of `PyErr`; a coroutine that can raise
  returns `Except PyErr α`.
* asyncio futures are modelled by `Nat` object identities: two futures are
  the same object iff their identities are equal.
* External collaborators (the `EjectProcessCounter` handle obtained from
  `ball_count_handler.start_eject()`, the outcome of each `Util.first`
  race, and the ball count reported by `get_ball_count()`) are oracles:
  their observable outcomes for one attempt are collected in `AttemptEnv`,
  and per loop iteration in `IterEnv`.  The handler's own control flow is
  translated line by line from the source.
* Every externally visible action (actuator call, terminal calls on the
  attempt handle, `IncomingBall` registration, `stop()`, the waits) is
  recorded in an `Event` trace, in program order.
-/

namespace MPF

/-- Python exception classes that the handler code can raise. -/
inductive PyErr
  | typeError       -- calling a function with the wrong number of arguments
  | assertionError  -- `raise AssertionError(...)`
deriving DecidableEq, Repr

/-- Modelled from the spec: outcome of the Step B race in
`_handle_late_confirm_or_missing`, i.e. of
`Util.first([ball_return_future, eject_success_future], timeout=60)`:
either the deadline elapses (`TimeoutError`), or one of the two futures
completes first.  `Util.first` returns a member of its input list, so
these three cases are exhaustive. -/
inductive LateOutcome
  | raceTimeout   -- neither future completes within the deadline
  | confirmFirst  -- eject_success_future completes first
  | returnFirst   -- ball_return_future completes first
deriving DecidableEq, Repr

/-- `EjectRequest.__init__`: `max_tries`, `eject_timeout` and `target`
start as `None` and are set by the caller; `confirm_future` is a fresh
`asyncio.Future`, identified by its object id. -/
structure EjectRequest where
  max_tries : Option Nat
  eject_timeout : Option Nat
  target : Nat
  mechanical : Bool
  confirm_future : Nat
deriving DecidableEq, Repr

/-- Modelled from the spec: the `IncomingBall` record produced by this core
(its class lives in `incoming_balls_handler.py`, outside the excerpt); the
three fields are exactly those assigned in `_add_incoming_ball_to_target`.
Futures are object ids, so field equality is object identity. -/
structure IncomingBall where
  source : Nat
  timeout_future : Nat
  confirm_future : Nat
deriving DecidableEq, Repr

/-- The handler; `ball_device` is the identity of the owning device
(`self.ball_device`). -/
structure OutgoingBallsHandler where
  ball_device : Nat
deriving DecidableEq, Repr

/-- Externally visible actions of the handler, in program order. -/
inductive Event
  | waitForBall                                 -- ball_count_handler.wait_for_ball()
  | prepareEject                                -- self._prepare_eject(...)
  | getBallCount (n : Nat)                      -- ball_count_handler.get_ball_count() returned n
  | startEject                                  -- ball_count_handler.start_eject()
  | ejectOneBall (jammed : Bool) (ejectTry : Nat)  -- ejector.eject_one_ball(is_jammed, eject_try)
  | waitBallLeft (timeout : Option Nat)         -- Util.first([wait_for_ball_left()], timeout)
  | addIncomingBall (target : Nat) (ib : IncomingBall)  -- target.add_incoming_ball(ib)
  | waitConfirm (timeout : Option Nat)          -- Util.first([wait_for_eject_confirm()], timeout, cancel_others=False)
  | waitLateRace (timeout : Nat)                -- Util.first([ball_return, eject_success], timeout)
  | ejectFailed                                 -- ball_eject_process.eject_failed()
  | ejectDone                                   -- ball_eject_process.eject_done()
  | deviceStop                                  -- self.ball_device.stop()
  | abortEjectBody                              -- body of _abort_eject actually executed
  | failedEjectBody                             -- body of _failed_eject actually executed
deriving DecidableEq, Repr

/-- Modelled from the spec: the oracle for one physical attempt — the
observable outcomes of the external signal surface
(`EjectProcessCounter` and the `Util.first` races) during `_eject_ball`
and its confirmation handling.  `timeout_future` is the identity of the
fresh `asyncio.Future` allocated in `_add_incoming_ball_to_target`. -/
structure AttemptEnv where
  is_jammed : Bool          -- ball_eject_process.is_jammed()
  ball_left_in_time : Bool  -- wait_for_ball_left() completes within eject_timeout
  confirm_in_time : Bool    -- confirm_future completes within eject_timeout
  is_ball_returned : Bool   -- ball_eject_process.is_ball_returned() at the Step A timeout
  late : LateOutcome        -- outcome of the Step B race
  timeout_future : Nat
deriving DecidableEq, Repr

/-- Oracle for one iteration of the `_ejecting` loop: the ball count
reported after `_prepare_eject`, and the attempt oracle used if an
attempt is started. -/
structure IterEnv where
  ball_count : Nat
  attempt : AttemptEnv
deriving DecidableEq, Repr

/-- How one run of `_ejecting` ends. -/
inductive RunOutcome
  | success        -- `return` after result was truthy
  | deviceStopped  -- `return` after self.ball_device.stop()
  | raised (e : PyErr)  -- an exception propagated out of the coroutine
  | envExhausted   -- the supplied oracle list ran out while the loop was still running
deriving DecidableEq, Repr

/-- A positional argument of a Python call. -/
inductive PyArg
  | requestArg (r : EjectRequest)
  | intArg (n : Nat)
deriving DecidableEq, Repr

/-- `def _abort_eject(self, eject_request): pass` — Python call semantics:
the method body runs only when exactly one positional argument (after
`self`) is supplied; any other arity raises `TypeError`.  On a successful
call the (empty) body is recorded as `abortEjectBody`. -/
def abort_eject (args : List PyArg) : Except PyErr (List Event) :=
  if args.length = 1 then Except.ok [Event.abortEjectBody]
  else Except.error PyErr.typeError

/-- `def _failed_eject(self, eject_request): pass` — same call semantics
as `abort_eject`. -/
def failed_eject (args : List PyArg) : Except PyErr (List Event) :=
  if args.length = 1 then Except.ok [Event.failedEjectBody]
  else Except.error PyErr.typeError

/-- `_handle_late_confirm_or_missing` (Step B): race
`wait_for_ball_return()` against `wait_for_eject_confirm()` with
`timeout = 60`.  On `TimeoutError`: `raise AssertionError("handle lost
ball")`.  If the confirm future wins: `eject_done()`, return True.  If the
ball-return future wins: `eject_failed()`, return False.  (`Util.first`
returns one of the two supplied futures, so the final
`raise AssertionError("Invalid state")` branch of the source is
unreachable.) -/
def handle_late_confirm_or_missing (env : AttemptEnv) : List Event × Except PyErr Bool :=
  match env.late with
  | LateOutcome.raceTimeout =>
      ([Event.waitLateRace 60], Except.error PyErr.assertionError)
  | LateOutcome.confirmFirst =>
      ([Event.waitLateRace 60, Event.ejectDone], Except.ok true)
  | LateOutcome.returnFirst =>
      ([Event.waitLateRace 60, Event.ejectFailed], Except.ok false)

/-- `_handle_confirm` (Step A): wait for `wait_for_eject_confirm()` with
`timeout = eject_request.eject_timeout` and `cancel_others=False` (the
confirm future stays live for Step B).  Success: `eject_done()`, return
True.  `TimeoutError`: if `is_ball_returned()` then `eject_failed()`,
return False; otherwise fall through to Step B. -/
def handle_confirm (req : EjectRequest) (env : AttemptEnv) : List Event × Except PyErr Bool :=
  if env.confirm_in_time then
    ([Event.waitConfirm req.eject_timeout, Event.ejectDone], Except.ok true)
  else if env.is_ball_returned then
    ([Event.waitConfirm req.eject_timeout, Event.ejectFailed], Except.ok false)
  else
    let lr := handle_late_confirm_or_missing env
    (Event.waitConfirm req.eject_timeout :: lr.1, lr.2)

/-- `_add_incoming_ball_to_target`: build an `IncomingBall` with
`source = self.ball_device`, a fresh `timeout_future`, and
`confirm_future = eject_request.confirm_future` (the very same object). -/
def add_incoming_ball_to_target (self : OutgoingBallsHandler) (req : EjectRequest)
    (fresh : Nat) : IncomingBall :=
  { source := self.ball_device, timeout_future := fresh,
    confirm_future := req.confirm_future }

/-- `_eject_ball`: open the attempt handle (`start_eject()`), fire the
actuator (`eject_one_ball(is_jammed, eject_try)`), then wait for
`wait_for_ball_left()` with `timeout = eject_request.eject_timeout`.
`TimeoutError`: `eject_failed()`, return False.  Otherwise register the
`IncomingBall` at the target and run `_handle_confirm`. -/
def eject_ball (self : OutgoingBallsHandler) (req : EjectRequest) (env : AttemptEnv)
    (eject_try : Nat) : List Event × Except PyErr Bool :=
  let pre := [Event.startEject, Event.ejectOneBall env.is_jammed eject_try,
              Event.waitBallLeft req.eject_timeout]
  if env.ball_left_in_time then
    let ib := add_incoming_ball_to_target self req env.timeout_future
    let hc := handle_confirm req env
    (pre ++ [Event.addIncomingBall req.target ib] ++ hc.1, hc.2)
  else
    (pre ++ [Event.ejectFailed], Except.ok false)

/-- `if eject_request.max_tries and eject_try > eject_request.max_tries:`
— Python truthiness: `None` and `0` are falsy, so the limit check only
fires when `max_tries` is a non-zero number that `eject_try` exceeds. -/
def retryLimitReached (max_tries : Option Nat) (eject_try : Nat) : Bool :=
  match max_tries with
  | none => false
  | some n => n != 0 && eject_try > n

/-- `_ejecting`: the main eject loop, driven by one `IterEnv` oracle per
iteration (`envExhausted` when the oracle list runs out).  Each iteration:
wait for a ball, `_prepare_eject`, re-read the ball count; if zero, call
`self._abort_eject(eject_request, eject_try)` and `continue`; otherwise
run `_eject_ball`, return on success, else call
`self._failed_eject(eject_request, eject_try)`, increment `eject_try`,
and stop the device when the retry limit is exceeded.  Both the abort and
the failed-eject call sites pass two positional arguments. -/
def ejecting (self : OutgoingBallsHandler) (req : EjectRequest) :
    Nat → List IterEnv → List Event × RunOutcome
  | _, [] => ([], RunOutcome.envExhausted)
  | eject_try, env :: rest =>
    let pre := [Event.waitForBall, Event.prepareEject, Event.getBallCount env.ball_count]
    if env.ball_count = 0 then
      match abort_eject [PyArg.requestArg req, PyArg.intArg eject_try] with
      | Except.error e => (pre, RunOutcome.raised e)
      | Except.ok body =>
        let k := ejecting self req eject_try rest
        (pre ++ body ++ k.1, k.2)
    else
      let ar := eject_ball self req env.attempt eject_try
      match ar.2 with
      | Except.error e => (pre ++ ar.1, RunOutcome.raised e)
      | Except.ok true => (pre ++ ar.1, RunOutcome.success)
      | Except.ok false =>
        match failed_eject [PyArg.requestArg req, PyArg.intArg eject_try] with
        | Except.error e => (pre ++ ar.1, RunOutcome.raised e)
        | Except.ok body =>
          if retryLimitReached req.max_tries (eject_try + 1) then
            (pre ++ ar.1 ++ body ++ [Event.deviceStop], RunOutcome.deviceStopped)
          else
            let k := ejecting self req (eject_try + 1) rest
            (pre ++ ar.1 ++ body ++ k.1, k.2)

/-- Discriminator: is the event a `start_eject()` call (one per physical
attempt)? -/
def isStartEject : Event → Bool
  | Event.startEject => true
  | _ => false

/-- Discriminator: is the event a `stop()` call on the device? -/
def isDeviceStop : Event → Bool
  | Event.deviceStop => true
  | _ => false

/-- Discriminator: did the body of `_abort_eject` actually run? -/
def isAbortBody : Event → Bool
  | Event.abortEjectBody => true
  | _ => false

/-- Discriminator: is the event a terminal call on the attempt handle
(`eject_done()` or `eject_failed()`)? -/
def isTerminalCall : Event → Bool
  | Event.ejectDone => true
  | Event.ejectFailed => true
  | _ => false

end MPF

namespace MPF

/-- Discriminator: is the event the `wait_for_ball()` call that starts a
loop iteration? -/
def isWaitForBall : Event → Bool
  | Event.waitForBall => true
  | _ => false

/-- Trace shape of one physical attempt: exactly one `start_eject()`
call, and never a device stop or an `_abort_eject` body. -/
theorem eject_ball_trace_counts (self : OutgoingBallsHandler) (req : EjectRequest)
    (env : AttemptEnv) (t : Nat) :
    (eject_ball self req env t).1.countP isStartEject = 1 ∧
    (eject_ball self req env t).1.countP isDeviceStop = 0 ∧
    (eject_ball self req env t).1.countP isAbortBody = 0 := by
  rcases env with ⟨j, bl, ci, br, late, tf⟩
  cases bl <;> cases ci <;> cases br <;> cases late <;>
    simp [eject_ball, handle_confirm, handle_late_confirm_or_missing,
      add_incoming_ball_to_target, isStartEject, isDeviceStop, isAbortBody,
      List.countP_cons, List.countP_append]

/-- One step of `_ejecting`: both two-argument call sites raise
`TypeError`, so the loop body never reaches a recursive iteration — it
either crashes in the abort branch, or runs exactly one physical attempt
and then returns (success) or crashes. -/
theorem ejecting_cons (self : OutgoingBallsHandler) (req : EjectRequest)
    (t : Nat) (env : IterEnv) (rest : List IterEnv) :
    ejecting self req t (env :: rest) =
      if env.ball_count = 0 then
        ([Event.waitForBall, Event.prepareEject, Event.getBallCount env.ball_count],
         RunOutcome.raised PyErr.typeError)
      else
        ([Event.waitForBall, Event.prepareEject, Event.getBallCount env.ball_count]
            ++ (eject_ball self req env.attempt t).1,
         match (eject_ball self req env.attempt t).2 with
         | Except.ok true => RunOutcome.success
         | Except.ok false => RunOutcome.raised PyErr.typeError
         | Except.error e => RunOutcome.raised e) := by
  rcases hE : (eject_ball self req env.attempt t).2 with e | b
  · by_cases h : env.ball_count = 0 <;>
      simp [ejecting, h, abort_eject, failed_eject, hE]
  · cases b <;> by_cases h : env.ball_count = 0 <;>
      simp [ejecting, h, abort_eject, failed_eject, hE]

end MPF

namespace MPF

/-- Handler instance used for concrete runs. -/
def theHandler : OutgoingBallsHandler := { ball_device := 1 }

/-- Concrete request with `max_tries = 1` and `eject_timeout = 10`. -/
def reqTries1 : EjectRequest :=
  { max_tries := some 1, eject_timeout := some 10, target := 2,
    mechanical := false, confirm_future := 5 }

/-- Concrete request with `max_tries` left unset (`None`). -/
def reqUnlimited : EjectRequest :=
  { max_tries := none, eject_timeout := some 10, target := 2,
    mechanical := false, confirm_future := 5 }

/-- Attempt oracle: the ball never leaves (the ball-left wait times out). -/
def attemptNoLeave : AttemptEnv :=
  { is_jammed := false, ball_left_in_time := false, confirm_in_time := false,
    is_ball_returned := false, late := LateOutcome.raceTimeout, timeout_future := 7 }

/-- Attempt oracle: ball leaves, never confirmed, never returned — the
lost-ball scenario. -/
def attemptLost : AttemptEnv :=
  { is_jammed := false, ball_left_in_time := true, confirm_in_time := false,
    is_ball_returned := false, late := LateOutcome.raceTimeout, timeout_future := 7 }

/-- Attempt oracle: ball leaves and confirmation arrives within the
eject timeout. -/
def attemptConfirmed : AttemptEnv :=
  { is_jammed := false, ball_left_in_time := true, confirm_in_time := true,
    is_ball_returned := false, late := LateOutcome.raceTimeout, timeout_future := 7 }

/-- Attempt oracle: Step A times out with the ball already back in the
device. -/
def attemptReturned : AttemptEnv :=
  { is_jammed := false, ball_left_in_time := true, confirm_in_time := false,
    is_ball_returned := true, late := LateOutcome.raceTimeout, timeout_future := 7 }

/-- Attempt oracle: confirmation arrives late, during the Step B race. -/
def attemptLateConfirm : AttemptEnv :=
  { attemptLost with late := LateOutcome.confirmFirst }

/-- Attempt oracle: the ball returns during the Step B race. -/
def attemptLateReturn : AttemptEnv :=
  { attemptLost with late := LateOutcome.returnFirst }

/-- Claim C1, the code evaluated at the failing input: with
`max_tries = 1` and every attempt failing, the run raises `TypeError` at
the `self._failed_eject(eject_request, eject_try)` call right after the
FIRST failed attempt — only one physical attempt happens and `stop()` is
never called, against the claimed `N+1` attempts followed by exactly one
stop. -/
theorem c1_run_raises_typeerror_before_any_stop :
    (ejecting theHandler reqTries1 0
        [⟨1, attemptNoLeave⟩, ⟨1, attemptNoLeave⟩, ⟨1, attemptNoLeave⟩]).2
      = RunOutcome.raised PyErr.typeError ∧
    (ejecting theHandler reqTries1 0
        [⟨1, attemptNoLeave⟩, ⟨1, attemptNoLeave⟩, ⟨1, attemptNoLeave⟩]).1.countP isStartEject = 1 ∧
    (ejecting theHandler reqTries1 0
        [⟨1, attemptNoLeave⟩, ⟨1, attemptNoLeave⟩, ⟨1, attemptNoLeave⟩]).1.countP isDeviceStop = 0 := by
  decide

/-- Claim C2, the code evaluated at the failing input: when the re-checked
ball count is zero, the loop raises `TypeError` at the
`self._abort_eject(eject_request, eject_try)` call — the abort body never
runs, the loop does not restart (a ball is available on the next
iteration's oracle and would let an attempt succeed), and no physical
attempt is made. -/
theorem c2_abort_path_raises_typeerror :
    ejecting theHandler reqTries1 0 [⟨0, attemptConfirmed⟩, ⟨1, attemptConfirmed⟩]
      = ([Event.waitForBall, Event.prepareEject, Event.getBallCount 0],
         RunOutcome.raised PyErr.typeError) := by
  decide

/-- Claim C3: both two-argument call sites hit one-parameter methods and
raise `TypeError`; consequently, in every run of the eject loop the
`_abort_eject` body never executes, `stop()` is never called, and at most
one physical attempt is ever started (no retry ever follows a failure). -/
theorem c3_two_arg_calls_raise_loop_cannot_progress
    (self : OutgoingBallsHandler) (req : EjectRequest) (t : Nat) (envs : List IterEnv) :
    abort_eject [PyArg.requestArg req, PyArg.intArg t] = Except.error PyErr.typeError ∧
    failed_eject [PyArg.requestArg req, PyArg.intArg t] = Except.error PyErr.typeError ∧
    (ejecting self req t envs).1.countP isAbortBody = 0 ∧
    (ejecting self req t envs).1.countP isDeviceStop = 0 ∧
    (ejecting self req t envs).1.countP isStartEject ≤ 1 := by
  refine ⟨rfl, rfl, ?_⟩
  cases envs with
  | nil => simp [ejecting]
  | cons env rest =>
    rw [ejecting_cons]
    by_cases h : env.ball_count = 0
    · simp [h, isAbortBody, isDeviceStop, isStartEject, List.countP_cons]
    · have hc := eject_ball_trace_counts self req env.attempt t
      simp [h, List.countP_append, List.countP_cons, hc.1, hc.2.1, hc.2.2,
        isAbortBody, isDeviceStop, isStartEject]

end MPF

namespace MPF

/-- Claim C4: in `_handle_confirm` (Step A), a confirmation within the
eject timeout gives `eject_done()` and success; a timeout with
`is_ball_returned()` true gives `eject_failed()` and failure — and the
exact traces show Step B (`waitLateRace`) is never entered in either
case. -/
theorem c4_step_a_confirm_and_returned_outcomes (req : EjectRequest) (env : AttemptEnv) :
    (env.confirm_in_time = true →
      handle_confirm req env
        = ([Event.waitConfirm req.eject_timeout, Event.ejectDone], Except.ok true)) ∧
    (env.confirm_in_time = false → env.is_ball_returned = true →
      handle_confirm req env
        = ([Event.waitConfirm req.eject_timeout, Event.ejectFailed], Except.ok false)) := by
  constructor
  · intro h; simp [handle_confirm, h]
  · intro h h2; simp [handle_confirm, h, h2]

/-- Witness for C4 at concrete inputs: a timely confirmation and a
returned ball. -/
theorem c4_step_a_confirm_and_returned_outcomes_witness :
    handle_confirm reqTries1 attemptConfirmed
      = ([Event.waitConfirm (some 10), Event.ejectDone], Except.ok true) ∧
    handle_confirm reqTries1 attemptReturned
      = ([Event.waitConfirm (some 10), Event.ejectFailed], Except.ok false) :=
  ⟨(c4_step_a_confirm_and_returned_outcomes reqTries1 attemptConfirmed).1 rfl,
   (c4_step_a_confirm_and_returned_outcomes reqTries1 attemptReturned).2 rfl rfl⟩

/-- Claim C5: the Step B race always uses the hard-coded 60-unit deadline
(`handle_late_confirm_or_missing` does not even take the request, so the
deadline cannot depend on its eject timeout); confirmation winning gives
`eject_done()` and success, the ball returning gives `eject_failed()` and
failure. -/
theorem c5_step_b_deadline_and_outcomes (env : AttemptEnv) :
    (handle_late_confirm_or_missing env).1.head? = some (Event.waitLateRace 60) ∧
    (env.late = LateOutcome.confirmFirst →
      handle_late_confirm_or_missing env
        = ([Event.waitLateRace 60, Event.ejectDone], Except.ok true)) ∧
    (env.late = LateOutcome.returnFirst →
      handle_late_confirm_or_missing env
        = ([Event.waitLateRace 60, Event.ejectFailed], Except.ok false)) := by
  refine ⟨?_, fun h => by simp [handle_late_confirm_or_missing, h],
    fun h => by simp [handle_late_confirm_or_missing, h]⟩
  cases h : env.late <;> simp [handle_late_confirm_or_missing, h]

/-- Witness for C5 at concrete inputs: a late confirmation and a late
ball return. -/
theorem c5_step_b_deadline_and_outcomes_witness :
    (handle_late_confirm_or_missing attemptLateConfirm).1.head?
      = some (Event.waitLateRace 60) ∧
    handle_late_confirm_or_missing attemptLateConfirm
      = ([Event.waitLateRace 60, Event.ejectDone], Except.ok true) ∧
    handle_late_confirm_or_missing attemptLateReturn
      = ([Event.waitLateRace 60, Event.ejectFailed], Except.ok false) :=
  ⟨(c5_step_b_deadline_and_outcomes attemptLateConfirm).1,
   (c5_step_b_deadline_and_outcomes attemptLateConfirm).2.1 rfl,
   (c5_step_b_deadline_and_outcomes attemptLateReturn).2.2 rfl⟩

/-- Claim C6: when neither signal resolves within the Step B window, the
attempt raises `AssertionError` (a propagating exception, not an ordinary
`false` attempt result), and the whole run is identical to the run with no
further iterations available — the loop never retries after the fault. -/
theorem c6_lost_ball_raises_and_is_not_retried
    (self : OutgoingBallsHandler) (req : EjectRequest) (t : Nat)
    (env : IterEnv) (rest : List IterEnv)
    (h0 : env.ball_count ≠ 0)
    (h1 : env.attempt.ball_left_in_time = true)
    (h2 : env.attempt.confirm_in_time = false)
    (h3 : env.attempt.is_ball_returned = false)
    (h4 : env.attempt.late = LateOutcome.raceTimeout) :
    (ejecting self req t (env :: rest)).2 = RunOutcome.raised PyErr.assertionError ∧
    ejecting self req t (env :: rest) = ejecting self req t [env] := by
  have hb : (eject_ball self req env.attempt t).2 = Except.error PyErr.assertionError := by
    simp [eject_ball, handle_confirm, handle_late_confirm_or_missing, h1, h2, h3, h4]
  have k1 := ejecting_cons self req t env rest
  have k2 := ejecting_cons self req t env []
  constructor
  · rw [k1]; simp [h0, hb]
  · rw [k1, k2]

/-- Witness for C6: the lost-ball iteration followed by an iteration that
would have succeeded; the run still ends in the `AssertionError` and
ignores the second iteration. -/
theorem c6_lost_ball_raises_and_is_not_retried_witness :
    (ejecting theHandler reqTries1 0 [⟨1, attemptLost⟩, ⟨1, attemptConfirmed⟩]).2
      = RunOutcome.raised PyErr.assertionError ∧
    ejecting theHandler reqTries1 0 [⟨1, attemptLost⟩, ⟨1, attemptConfirmed⟩]
      = ejecting theHandler reqTries1 0 [⟨1, attemptLost⟩] :=
  c6_lost_ball_raises_and_is_not_retried theHandler reqTries1 0
    ⟨1, attemptLost⟩ [⟨1, attemptConfirmed⟩] (by decide) rfl rfl rfl rfl

end MPF

namespace MPF

/-- Claim C7 counterexample: on the lost-ball path (ball leaves, Step A
times out with no return, Step B deadline elapses) the attempt raises
without calling either terminal: the trace holds zero `eject_done()` or
`eject_failed()` calls, not exactly one. -/
theorem c7_lost_ball_path_has_no_terminal_call :
    (eject_ball theHandler reqTries1 attemptLost 0).1.countP isTerminalCall ≠ 1 ∧
    (eject_ball theHandler reqTries1 attemptLost 0).1.countP isTerminalCall = 0 ∧
    (eject_ball theHandler reqTries1 attemptLost 0).2
      = Except.error PyErr.assertionError :=
  ⟨by decide, by decide, rfl⟩

/-- Claim C7 amended: every attempt calls at most one terminal on its
handle, and every attempt that returns a normal result (success or
failure, rather than raising the lost-ball `AssertionError`) calls exactly
one. -/
theorem c7_amended_terminal_call_discipline
    (self : OutgoingBallsHandler) (req : EjectRequest) (env : AttemptEnv) (t : Nat) :
    (eject_ball self req env t).1.countP isTerminalCall ≤ 1 ∧
    (∀ b : Bool, (eject_ball self req env t).2 = Except.ok b →
      (eject_ball self req env t).1.countP isTerminalCall = 1) := by
  rcases env with ⟨j, bl, ci, br, late, tf⟩
  cases bl <;> cases ci <;> cases br <;> cases late <;>
    simp [eject_ball, handle_confirm, handle_late_confirm_or_missing,
      add_incoming_ball_to_target, isTerminalCall, List.countP_cons, List.countP_append]

/-- Witness for the amended C7: a normally-returning success attempt has
exactly one terminal call. -/
theorem c7_amended_terminal_call_discipline_witness :
    (eject_ball theHandler reqTries1 attemptConfirmed 0).1.countP isTerminalCall = 1 :=
  (c7_amended_terminal_call_discipline theHandler reqTries1 attemptConfirmed 0).2 true rfl

/-- Claim C8: when the ball-left wait times out, the attempt's whole trace
is actuator fire, ball-left wait, then `eject_failed()`, with result
failure — no `IncomingBall` registration and no confirmation wait appear
in it. -/
theorem c8_ball_left_timeout_fails_without_incoming
    (self : OutgoingBallsHandler) (req : EjectRequest) (env : AttemptEnv) (t : Nat)
    (h : env.ball_left_in_time = false) :
    eject_ball self req env t
      = ([Event.startEject, Event.ejectOneBall env.is_jammed t,
          Event.waitBallLeft req.eject_timeout, Event.ejectFailed], Except.ok false) := by
  simp [eject_ball, h]

/-- Witness for C8 at a concrete no-leave attempt. -/
theorem c8_ball_left_timeout_fails_without_incoming_witness :
    eject_ball theHandler reqTries1 attemptNoLeave 0
      = ([Event.startEject, Event.ejectOneBall false 0,
          Event.waitBallLeft (some 10), Event.ejectFailed], Except.ok false) :=
  c8_ball_left_timeout_fails_without_incoming theHandler reqTries1 attemptNoLeave 0 rfl

/-- Claim C9, the code evaluated at the failing input: with `max_tries`
unset, the first failed attempt raises `TypeError` at the `_failed_eject`
call, so the loop never re-enters the wait-for-ball step — there is no
unbounded retry (the wait-for-ball step runs once; stop is indeed never
reached, but only because the exception ends the loop first). -/
theorem c9_unlimited_request_crashes_instead_of_retrying :
    (ejecting theHandler reqUnlimited 0
        [⟨1, attemptNoLeave⟩, ⟨1, attemptNoLeave⟩, ⟨1, attemptNoLeave⟩]).2
      = RunOutcome.raised PyErr.typeError ∧
    (ejecting theHandler reqUnlimited 0
        [⟨1, attemptNoLeave⟩, ⟨1, attemptNoLeave⟩, ⟨1, attemptNoLeave⟩]).1.countP isWaitForBall = 1 ∧
    (ejecting theHandler reqUnlimited 0
        [⟨1, attemptNoLeave⟩, ⟨1, attemptNoLeave⟩, ⟨1, attemptNoLeave⟩]).1.countP isDeviceStop = 0 := by
  decide

/-- Claim C10: once the ball has left, the attempt registers at the
request's target an `IncomingBall` whose `confirm_future` is the very
same object id as the request's confirmation future and whose `source` is
this handler's ball device, and this registration event sits between the
ball-left wait and the confirmation wait in the trace. -/
theorem c10_incoming_ball_shares_confirm_future
    (self : OutgoingBallsHandler) (req : EjectRequest) (env : AttemptEnv) (t : Nat)
    (h : env.ball_left_in_time = true) :
    (add_incoming_ball_to_target self req env.timeout_future).confirm_future
      = req.confirm_future ∧
    (add_incoming_ball_to_target self req env.timeout_future).source
      = self.ball_device ∧
    (eject_ball self req env t).1.take 5
      = [Event.startEject, Event.ejectOneBall env.is_jammed t,
         Event.waitBallLeft req.eject_timeout,
         Event.addIncomingBall req.target
           (add_incoming_ball_to_target self req env.timeout_future),
         Event.waitConfirm req.eject_timeout] := by
  refine ⟨rfl, rfl, ?_⟩
  rcases env with ⟨j, bl, ci, br, late, tf⟩
  cases ci <;> cases br <;> cases late <;>
    simp_all [eject_ball, handle_confirm, handle_late_confirm_or_missing,
      add_incoming_ball_to_target]

/-- Witness for C10 on a concrete confirmed attempt. -/
theorem c10_incoming_ball_shares_confirm_future_witness :
    (add_incoming_ball_to_target theHandler reqTries1 7).confirm_future
      = reqTries1.confirm_future ∧
    (add_incoming_ball_to_target theHandler reqTries1 7).source
      = theHandler.ball_device ∧
    (eject_ball theHandler reqTries1 attemptConfirmed 0).1.take 5
      = [Event.startEject, Event.ejectOneBall false 0,
         Event.waitBallLeft (some 10),
         Event.addIncomingBall 2 (add_incoming_ball_to_target theHandler reqTries1 7),
         Event.waitConfirm (some 10)] :=
  c10_incoming_ball_shares_confirm_future theHandler reqTries1 attemptConfirmed 0 rfl

end MPF
